import Mathlib

/-!
Verification development for the LiveData Modbus meter server (Server.py).

Shallow embedding conventions:
* Instants (`datetime`) are modelled as `Int` milliseconds; `datetime.min`,
  the "dawn of time" sentinel, is modelled by `tmin`.  `datetime.utcnow()`
  is modelled by explicit clock-read parameters: `GoModbus` reads the clock
  up to three times (once in the staleness gate, and on the update paths once
  for `Timestamp` and once for `ChangeTime`, matching the two separate
  `datetime.utcnow()` calls on the update line), so it receives `t0 t1 t2`.
* Python floats (`Scale`, `Value`, ...) are modelled as exact rationals;
  every numeric computation appearing in the claims is exact.
* The per-record `ThreadLock` is modelled as an explicit boolean lock state:
  as a `lockHeld` input/`lockOut` output of the single-call function
  `GoModbus`, and as the `lock` field of the interleaving machine `Sys`.
* The external fetch primitive (`modbus_tk` TCP master) is a parameter: a
  poll receives `Except FetchErr (List Nat)`, either the list of 16-bit
  register words or a failure (`ModbusError` with its exception code, or any
  other exception such as a socket timeout, carrying its message).
* Python's `struct.pack`/`struct.unpack` are modelled on the subset of
  format strings this program can build from 'H' codes: a leading
  byte-order character is consumed, every further character must be an 'H'
  (2 bytes, big-endian 16-bit unsigned); any other character — including a
  second byte-order character — is a format error, exactly as in CPython.
-/

deriving instance DecidableEq for Except

unseal Rat.mul Rat.add Rat.sub Nat.gcd

/-- Model of `datetime.min`, the sentinel "dawn of time" default. -/
def tmin : Int := 0

/-- One meter record, as built by `LoadSettings` (Server.py lines 40-68):
the CSV row with its numeric fields converted.  Field names follow the
dictionary keys of the source.  The `ThreadLock` entry is modelled outside
the record (see the module docstring); the CSV time columns are not
modelled, so records start at the `tmin` sentinel exactly as when the
definition file has no Timestamp/ChangeTime/PrevChangeTime columns. -/
structure MeterRec where
  Name : String
  Units : String
  IP : Option String
  Port : Int
  Address : Int
  Function : Int
  Register : Int
  Count : Int
  Scale : Rat
  Encoding : Option String
  BigEndian : Bool
  AutoUpdate : Bool
  Value : Rat
  PrevValue : Rat
  Timestamp : Int
  ChangeTime : Int
  PrevChangeTime : Int
deriving DecidableEq, Repr

/-- Big-endian byte pair of one 16-bit word (`struct.pack('>H', w)`). -/
def packWord (w : Nat) : List Nat := [w / 256 % 256, w % 256]

/-- Model of `struct.pack('>' + 'H'*n, *words)` (Server.py line 82): the
concatenated big-endian bytes, or the `struct.error` raised when a word is
out of the unsigned 16-bit range. -/
def packWords (ws : List Nat) : Except String (List Nat) :=
  if ws.all (fun w => w < 65536) then Except.ok (ws.map packWord).flatten
  else Except.error "ushort format requires 0 <= number <= 65535"

/-- Characters accepted by CPython `struct` as a byte-order mark, valid only
in the first position of a format string. -/
def isByteOrderChar (c : Char) : Bool :=
  c = '>' || c = '<' || c = '=' || c = '!' || c = '@'

/-- Byte size of a struct format body.  In the reachable subset every item
character must be 'H' (2 bytes); any other character — notably a byte-order
character occurring after the first position — is CPython's
"bad char in struct format" error, returned as `none`. -/
def fmtSize : List Char → Option Nat
  | [] => some 0
  | c :: rest => if c = 'H' then (fmtSize rest).map (· + 2) else none

/-- Decode a byte list as consecutive big-endian 16-bit words. -/
def unpackH : List Nat → List Nat
  | b1 :: b2 :: rest => (b1 * 256 + b2) :: unpackH rest
  | _ => []

/-- Model of `struct.unpack(fmt, data)` for this program's formats: strip a
leading byte-order character, reject any remaining non-'H' character
("bad char in struct format"), reject a size mismatch between the format
and the buffer, otherwise return the tuple of decoded 16-bit values. -/
def structUnpack (fmt : List Char) (data : List Nat) : Except String (List Nat) :=
  let body := match fmt with
    | c :: rest => if isByteOrderChar c then rest else fmt
    | [] => ([] : List Char)
  match fmtSize body with
  | none => Except.error "bad char in struct format"
  | some sz =>
      if sz = data.length then Except.ok (unpackH data)
      else Except.error "unpack requires a buffer of the format size"

/-- The default encoding argument `'>'+'H'*len(result)` of
`meters[id].get('Encoding', ...)` on Server.py line 82. -/
def defaultEncoding (n : Nat) : String :=
  ">" ++ String.mk (List.replicate n 'H')

/-- The decode expression of Server.py line 82:
`Scale * unpack('>'+Encoding-or-default, pack('>'+'H'*n, *(words if BigEndian else reversed(words))))[0]`.
Failures (`struct.error`, `IndexError` from `[0]` on an empty tuple) are
returned as `Except.error` with the exception message; in `GoModbus` they
are caught by the generic `except Exception` handler. -/
def decodeVal (r : MeterRec) (words : List Nat) : Except String Rat :=
  let ws := if r.BigEndian then words else words.reverse
  let fmt := ">" ++ r.Encoding.getD (defaultEncoding words.length)
  match packWords ws with
  | Except.error m => Except.error m
  | Except.ok bytes =>
    match structUnpack fmt.data bytes with
    | Except.error m => Except.error m
    | Except.ok [] => Except.error "tuple index out of range"
    | Except.ok (v :: _) => Except.ok (r.Scale * (v : Rat))

/-- Outcome of the external fetch primitive `master.execute(...)`:
a Modbus-protocol exception with its code, or any other exception
(socket timeout etc.) with its message. -/
inductive FetchErr where
  | modbus (code : Nat)
  | other (msg : String)
deriving DecidableEq, Repr

/-- Result of one `GoModbus` call: the record after the call, the `Status`
string of the returned snapshot, whether the fetch primitive was invoked,
and the state of the record's guard after the call. -/
structure PollResult where
  record : MeterRec
  status : String
  didFetch : Bool
  lockOut : Bool
deriving DecidableEq, Repr

/-- Body of the critical section of `GoModbus` (Server.py lines 79-96):
given the record, the two clock reads of the update line, and the fetch
outcome, produce the updated record and the status string.  Mirrors the
source: on a changed value, rotate the previous fields and stamp both
times; then, if the (already rotated) `PrevChangeTime` and `PrevValue`
are at their sentinel defaults, re-seed `PrevValue` from the fresh
`Value`; on an unchanged value, stamp `Timestamp` only; on a
`ModbusError` or any other exception, leave the record untouched. -/
def pollBody (r : MeterRec) (t1 t2 : Int) (fetch : Except FetchErr (List Nat)) :
    MeterRec × String :=
  match fetch with
  | Except.error (FetchErr.modbus c) => (r, "Modbus Error " ++ toString c)
  | Except.error (FetchErr.other m) => (r, "Error " ++ m)
  | Except.ok words =>
    match decodeVal r words with
    | Except.error m => (r, "Error " ++ m)
    | Except.ok val =>
      if val ≠ r.Value then
        let r1 := { r with PrevValue := r.Value, PrevChangeTime := r.ChangeTime,
                           Value := val, Timestamp := t1, ChangeTime := t2 }
        let r2 := if r1.PrevChangeTime = tmin ∧ r1.PrevValue = 0
                  then { r1 with PrevValue := r1.Value } else r1
        (r2, "Polled")
      else
        ({ r with Timestamp := t1 }, "Polled but no recent change")

/-- Model of `GoModbus(id)` (Server.py lines 74-101) for a known id, acting
on the id's record.  `mp` is `minpolltime` (milliseconds), `t0` the clock
read of the staleness gate, `t1 t2` the clock reads of the update line,
`lockHeld` whether another thread currently holds the record's
`ThreadLock`, and `fetch` the outcome of the external fetch.  The gate is
`(utcnow() - Timestamp) > timedelta(milliseconds=mp) and ThreadLock.acquire(False)`;
when it fails the cached data is returned with status `Cached` and nothing
is touched.  The `finally` clause releases the lock on every path, so the
lock state after the call equals the state before it. -/
def GoModbus (r : MeterRec) (mp t0 t1 t2 : Int) (lockHeld : Bool)
    (fetch : Except FetchErr (List Nat)) : PollResult :=
  if t0 - r.Timestamp > mp ∧ lockHeld = false then
    let res := pollBody r t1 t2 fetch
    { record := res.1, status := res.2, didFetch := true, lockOut := false }
  else
    { record := r, status := "Cached", didFetch := false, lockOut := lockHeld }

/-- One CSV row of the meter definition file as `csv.DictReader` delivers it
to `LoadSettings`: a dictionary of strings.  `ID`, `Name` and `Units` are the
columns the program reads unconditionally (`item.pop('ID')` on line 68 and
the snapshot fields on line 101); the remaining columns are `Option`al,
`none` meaning the column is absent from the file, which makes
`item.get(key, default)` return the hard-coded default.  The CSV time
columns are outside the model (see `MeterRec`). -/
structure Row where
  ID : String
  Name : String
  Units : String
  IP : Option String
  Port : Option String
  Address : Option String
  Function : Option String
  Register : Option String
  Count : Option String
  Scale : Option String
  Value : Option String
  PrevValue : Option String
  Encoding : Option String
  BigEndian : Option String
  AutoUpdate : Option String
deriving DecidableEq, Repr

/-- Digits of a decimal literal, `none` when a character is not a digit or
the string is empty. -/
def digitsToNat (cs : List Char) : Option Nat :=
  if cs.isEmpty then none
  else if cs.all Char.isDigit then
    some (cs.foldl (fun a c => a * 10 + (c.toNat - 48)) 0)
  else none

/-- Python `int(s)` on the decimal strings this model uses: an optional
sign followed by digits, `ValueError` (`none`) otherwise. -/
def pyIntStr (s : String) : Option Int :=
  match s.data with
  | '-' :: rest => (digitsToNat rest).map (fun n => -(n : Int))
  | '+' :: rest => (digitsToNat rest).map (fun n => (n : Int))
  | cs => (digitsToNat cs).map (fun n => (n : Int))

/-- Python `float(s)` on the plain decimal strings this model uses: an
optional sign, digits with at most one decimal point (at least one digit
overall), `ValueError` (`none`) otherwise. -/
def pyFloatStr (s : String) : Option Rat :=
  let core : List Char → Option Rat := fun cs =>
    match cs.splitOn '.' with
    | [ip] => (digitsToNat ip).map (fun n => (n : Rat))
    | [ip, fp] =>
        if ip.isEmpty ∧ fp.isEmpty then none
        else
          let ipn := if ip.isEmpty then some 0 else digitsToNat ip
          let fpn := if fp.isEmpty then some 0 else digitsToNat fp
          match ipn, fpn with
          | some a, some b => some (mkRat (a * 10 ^ fp.length + b) (10 ^ fp.length))
          | _, _ => none
    | _ => none
  match s.data with
  | '-' :: rest => (core rest).map (fun q => -q)
  | '+' :: rest => core rest
  | cs => core cs

/-- `int(item.get(key, 0))` — absent column gives the (intentionally
invalid) default `0`, a present value must parse as an int. -/
def pyIntField (o : Option String) : Option Int :=
  match o with
  | none => some 0
  | some s => pyIntStr s

/-- `float(item.get(key, d))` — absent column gives the default `d`, a
present value must parse as a float. -/
def pyFloatField (d : Rat) (o : Option String) : Option Rat :=
  match o with
  | none => some d
  | some s => pyFloatStr s

/-- Python `str.lower()` on the ASCII tokens of the definition file,
defined structurally over the character list. -/
def strLower (s : String) : String := String.mk (s.data.map Char.toLower)

/-- The `BigEndian` token vocabulary of Server.py lines 54-60: the default
token is `'True'`; after lowercasing, a blank or big-endian token gives
`true`, a little-endian token gives `false`, anything else raises
`ValueError`. -/
def parseBigEndianTok (o : Option String) : Option Bool :=
  let t := strLower (o.getD "True")
  if [">", "big", "true", "1", "yes", ""].contains t then some true
  else if ["<", "little", "false", "0", "no"].contains t then some false
  else none

/-- The `AutoUpdate` token vocabulary of Server.py lines 61-67: the default
token is `'False'`; after lowercasing, a true token enables auto-update, a
false or blank token disables it, anything else raises `ValueError`. -/
def parseAutoUpdateTok (o : Option String) : Option Bool :=
  let t := strLower (o.getD "False")
  if ["true", "1", "yes"].contains t then some true
  else if ["false", "0", "no", ""].contains t then some false
  else none

/-- Conversion of one CSV row (Server.py lines 40-68): numeric fields are
converted with their defaults, the endianness and auto-update tokens are
checked against the fixed vocabulary, and the record is keyed by the
lowercased `ID`.  `none` models the `ValueError` that aborts the load. -/
def parseRow (row : Row) : Option (String × MeterRec) := do
  let fn ← pyIntField row.Function
  let cnt ← pyIntField row.Count
  let reg ← pyIntField row.Register
  let addr ← pyIntField row.Address
  let port ← pyIntField row.Port
  let scale ← pyFloatField 1 row.Scale
  let val ← pyFloatField 0 row.Value
  let pval ← pyFloatField 0 row.PrevValue
  let be ← parseBigEndianTok row.BigEndian
  let au ← parseAutoUpdateTok row.AutoUpdate
  pure (strLower row.ID,
    { Name := row.Name, Units := row.Units, IP := row.IP, Port := port,
      Address := addr, Function := fn, Register := reg, Count := cnt,
      Scale := scale, Encoding := row.Encoding, BigEndian := be,
      AutoUpdate := au, Value := val, PrevValue := pval,
      Timestamp := tmin, ChangeTime := tmin, PrevChangeTime := tmin })

/-- The meter store: the `meters` dictionary, id → record, in insertion
order. -/
abbrev MeterMap := List (String × MeterRec)

/-- `meters.update({key: item})`: replace the entry of an existing key in
place, or append a new entry, like a Python dict update. -/
def insertMeter : MeterMap → String → MeterRec → MeterMap
  | [], k, r => [(k, r)]
  | (k0, r0) :: rest, k, r =>
      if k0 = k then (k, r) :: rest else (k0, r0) :: insertMeter rest k r

/-- The row loop of `LoadSettings` (Server.py lines 39-68), started on the
cleared dictionary: insert each converted row; a `ValueError` stops the
loop at the offending row, leaving the rows already inserted (`false` =
the loop was aborted by the error). -/
def loadLoop (m : MeterMap) : List Row → MeterMap × Bool
  | [] => (m, true)
  | row :: rest =>
    match parseRow row with
    | none => (m, false)
    | some (k, r) => loadLoop (insertMeter m k r) rest

/-- `LoadSettings` (Server.py lines 31-72) as a map transformer: back up
the current `meters`, clear it, run the row loop; on a `ValueError`
restore the backup and report the error (the returned flag is `true` when
the parse error message was printed). -/
def LoadSettings (old : MeterMap) (rows : List Row) : MeterMap × Bool :=
  match loadLoop [] rows with
  | (m, true) => (m, false)
  | (_, false) => (old, true)

/-- The dictionary contents after each successful row insertion of the
load loop (empty when the first row already fails). -/
def loadPartials (m : MeterMap) : List Row → List MeterMap
  | [] => []
  | row :: rest =>
    match parseRow row with
    | none => []
    | some (k, r) => insertMeter m k r :: loadPartials (insertMeter m k r) rest

/-- Every state of the live `meters` dictionary observable by a concurrent
reader during `LoadSettings`: the pre-reload map, the cleared map (after
`meters.clear()` on line 37), the map after each row insertion, and the
final map. -/
def loadObservableStates (old : MeterMap) (rows : List Row) : List MeterMap :=
  old :: [] :: loadPartials [] rows ++ [(LoadSettings old rows).1]

/-- Program counter of one thread running `GoModbus(id)` on a shared
record, split at the atomic observation points of the source line 77:
`start` — about to evaluate the staleness comparison; `gated` — staleness
passed, about to call `ThreadLock.acquire(False)`; `fetching` — lock held,
fetch in flight (through to the update and the `finally` release);
`done status fetched` — returned. -/
inductive PC where
  | start
  | gated
  | fetching
  | done (status : String) (fetched : Bool)
deriving DecidableEq, Repr

/-- Program counter used for an out-of-range thread index (never a live
thread). -/
def pcDflt : PC := PC.done "" false

/-- Shared state of several concurrent `GoModbus(id)` calls on a single
meter id: the record, its `ThreadLock`, a count of fetch invocations, and
each caller's program counter. -/
structure Sys where
  record : MeterRec
  lock : Bool
  fetches : Nat
  pcs : List PC
deriving DecidableEq, Repr

/-- One atomic step of caller `i`.  The staleness comparison and the
non-blocking acquire are separate atomic actions, as in the source where
line 77 first evaluates `datetime.utcnow() - Timestamp > ...` and only
then calls `acquire(False)`.  The critical section (fetch, decode, update,
release) runs under the lock; entering it counts one invocation of the
fetch primitive. -/
def stepCaller (mp now t1 t2 : Int) (fetch : Except FetchErr (List Nat))
    (s : Sys) (i : Nat) : Sys :=
  match s.pcs.getD i pcDflt with
  | PC.start =>
      if now - s.record.Timestamp > mp then { s with pcs := s.pcs.set i PC.gated }
      else { s with pcs := s.pcs.set i (PC.done "Cached" false) }
  | PC.gated =>
      if s.lock then { s with pcs := s.pcs.set i (PC.done "Cached" false) }
      else { s with lock := true, fetches := s.fetches + 1,
                    pcs := s.pcs.set i PC.fetching }
  | PC.fetching =>
      let res := pollBody s.record t1 t2 fetch
      { s with record := res.1, lock := false,
               pcs := s.pcs.set i (PC.done res.2 true) }
  | PC.done _ _ => s

/-- Run a schedule: an arbitrary interleaving of the callers' atomic
steps. -/
def runSched (mp now t1 t2 : Int) (fetch : Except FetchErr (List Nat))
    (s : Sys) : List Nat → Sys
  | [] => s
  | i :: rest => runSched mp now t1 t2 fetch (stepCaller mp now t1 t2 fetch s i) rest

/-- `n` concurrent callers about to poll the same id: lock free, no fetch
performed yet. -/
def initSys (n : Nat) (r : MeterRec) : Sys :=
  { record := r, lock := false, fetches := 0, pcs := List.replicate n PC.start }

/-- Contribution of one program counter to the in-flight fetch count. -/
def cf1 (pc : PC) : Nat :=
  match pc with
  | PC.fetching => 1
  | _ => 0

/-- Number of callers whose fetch is in flight. -/
def countFetching : List PC → Nat
  | [] => 0
  | pc :: rest => cf1 pc + countFetching rest

/-- The claimed ordering invariant of a record's time fields:
`Timestamp ≥ ChangeTime ≥ PreviousChangeTime`. -/
def timeOrdered (r : MeterRec) : Prop :=
  r.ChangeTime ≤ r.Timestamp ∧ r.PrevChangeTime ≤ r.ChangeTime

instance (r : MeterRec) : Decidable (timeOrdered r) := by
  unfold timeOrdered
  infer_instance

/-- Lock/fetch-count invariant of the interleaving machine: the number of
in-flight fetches is one exactly while the record's guard is held, zero
otherwise. -/
def exInv (s : Sys) : Prop :=
  countFetching s.pcs = (if s.lock = true then 1 else 0)

/-- The auto-poll loop `RegularUpdate` (Server.py lines 175-180), with time
abstracted: the shutdown flag is set at instant `shutdownAt`; one pass over
the auto-update meters takes `cycle`; `sleep(wait)` takes `wait`.  The loop
tests `Shutdown.is_set()` once per iteration — before the polling cycle,
which is also the first statement executed after waking — and otherwise
runs the cycle and sleeps.  Returns the instant at which the loop observes
the flag and exits (`none` if the fuel runs out first). -/
def RegularUpdate (shutdownAt cycle wait : Nat) : Nat → Nat → Option Nat
  | _, 0 => none
  | t, fuel + 1 =>
      if shutdownAt ≤ t then some t
      else RegularUpdate shutdownAt cycle wait (t + cycle + wait) fuel

/-- A record with sentinel cache state, used to instantiate theorems. -/
def sampleRec : MeterRec :=
  { Name := "meter1", Units := "kWh", IP := some "10.0.0.1", Port := 502,
    Address := 1, Function := 3, Register := 0, Count := 1, Scale := 1,
    Encoding := some "H", BigEndian := true, AutoUpdate := false,
    Value := 0, PrevValue := 0, Timestamp := tmin, ChangeTime := tmin,
    PrevChangeTime := tmin }

/-- A well-formed definition row: every optional column absent, so all the
hard-coded defaults apply, keyed `b`. -/
def rowOk : Row :=
  { ID := "B", Name := "b", Units := "u", IP := none, Port := some "502",
    Address := some "1", Function := some "3", Register := some "0",
    Count := some "1", Scale := none, Value := none, PrevValue := none,
    Encoding := none, BigEndian := none, AutoUpdate := none }

/-- A second well-formed row, keyed `c`. -/
def rowOk2 : Row := { rowOk with ID := "C", Name := "c" }

/-- A malformed row: the `BigEndian` token is outside the accepted
vocabulary, raising `ValueError` during the load. -/
def rowMalformed : Row := { rowOk with ID := "D", BigEndian := some "maybe" }

/-- The record `rowOk` parses to. -/
def recOk : MeterRec :=
  { Name := "b", Units := "u", IP := none, Port := 502, Address := 1,
    Function := 3, Register := 0, Count := 1, Scale := 1, Encoding := none,
    BigEndian := true, AutoUpdate := false, Value := 0, PrevValue := 0,
    Timestamp := tmin, ChangeTime := tmin, PrevChangeTime := tmin }

/-- A store holding one meter with some cached data, as it stands before a
reload. -/
def storeBefore : MeterMap := [("a", { sampleRec with Value := 9 })]

/-- If any row of the input fails to parse, the row loop reports failure,
whatever rows were inserted before the failure. -/
theorem loadLoop_any_malformed (rows : List Row) :
    ∀ m : MeterMap, rows.any (fun row => (parseRow row).isNone) = true →
      (loadLoop m rows).2 = false := by
  induction rows with
  | nil => intro m h; simp [List.any] at h
  | cons row rest ih =>
    intro m h
    unfold loadLoop
    cases hp : parseRow row with
    | none => rfl
    | some kr =>
      have hrest : rest.any (fun row => (parseRow row).isNone) = true := by
        simp [List.any_cons, hp] at h
        simpa using h
      exact ih (insertMeter m kr.1 kr.2) hrest

/-- C8 (amended): the final map produced by a reload is the old snapshot
whenever any input row is malformed — ids and record values are left
identical to the pre-reload state and the parse error is reported — while
on a fully valid input it is the new fully-loaded map; however, the live
dictionary passes through the cleared and partially-populated intermediate
states while the load is running (see the counterexample), because
`LoadSettings` clears and repopulates the live map in place instead of
building the new map aside and swapping it in. -/
theorem C8_reload_restores_on_error (old : MeterMap) (rows : List Row)
    (h : rows.any (fun row => (parseRow row).isNone) = true) :
    LoadSettings old rows = (old, true) := by
  unfold LoadSettings
  have h2 := loadLoop_any_malformed rows [] h
  rcases hl : loadLoop [] rows with ⟨m, ok⟩
  rw [hl] at h2
  simp at h2
  rw [h2]

/-- Witness for C8: a reload of `storeBefore` whose second row is malformed
keeps the store identical and reports the parse error. -/
theorem C8_reload_restores_on_error_witness :
    LoadSettings storeBefore [rowOk, rowMalformed] = (storeBefore, true) :=
  C8_reload_restores_on_error storeBefore [rowOk, rowMalformed] (by decide)

/-- Counterexample for C8 as stated: during a reload of `storeBefore` with
two valid rows, the state `[(b, recOk)]` — after the first row was inserted
into the cleared live dictionary — is observable, and it is neither the
previous snapshot nor the final fully-loaded snapshot. -/
theorem C8_partial_state_observable :
    [("b", recOk)] ∈ loadObservableStates storeBefore [rowOk, rowOk2]
      ∧ [("b", recOk)] ≠ storeBefore
      ∧ [("b", recOk)] ≠ (LoadSettings storeBefore [rowOk, rowOk2]).1 := by
  decide

/-- C4: with no configured `Encoding` the decoder can never succeed: the
code prepends `'>'` to a default format that already starts with `'>'`
(`'>'+'H'*len(result)`), so `struct.unpack` raises
`struct.error: bad char in struct format` and the poll falls into the
generic error path instead of producing `scale * value`.  At the claim's
own input — words `[50]`, `BigEndian=True`, default encoding, scale `2.0`
— the decode yields this error, not `100.0`. -/
theorem C4_default_encoding_always_fails :
    decodeVal { sampleRec with Encoding := none, Scale := 2 } [50]
      = Except.error "bad char in struct format" := by
  decide

/-- C6: the guard is released on every exit path of a poll that acquired
it — successful update, no-change update, Modbus failure, and any other
fetch or decode failure — so the lock state after any `GoModbus` call
equals the state before it (in particular, a poll that acquired the free
lock leaves it free again). -/
theorem C6_guard_released (r : MeterRec) (mp t0 t1 t2 : Int) (lockHeld : Bool)
    (fetch : Except FetchErr (List Nat)) :
    (GoModbus r mp t0 t1 t2 lockHeld fetch).lockOut = lockHeld := by
  unfold GoModbus
  split
  case isTrue h => exact h.2.symm
  case isFalse h => rfl

/-- The auto-poll loop observes the shutdown flag at the first iteration
boundary at or past the signal: starting from instant `t` before the
horizon, with enough fuel, the loop exits at an instant less than one full
cycle-plus-sleep past the signal. -/
theorem regularUpdate_exit_bound (shutdownAt cycle wait : Nat)
    (hcw : 1 ≤ cycle + wait) :
    ∀ fuel t, t < shutdownAt + (cycle + wait) →
      shutdownAt ≤ t + fuel * (cycle + wait) →
      ∃ r, RegularUpdate shutdownAt cycle wait t (fuel + 1) = some r
           ∧ r < shutdownAt + (cycle + wait) := by
  intro fuel
  induction fuel with
  | zero =>
    intro t ht hs
    refine ⟨t, ?_, ht⟩
    unfold RegularUpdate
    rw [if_pos (by omega)]
  | succ n ih =>
    intro t ht hs
    by_cases hc : shutdownAt ≤ t
    · refine ⟨t, ?_, ht⟩
      unfold RegularUpdate
      rw [if_pos hc]
    · have hs2 : shutdownAt ≤ (t + cycle + wait) + n * (cycle + wait) := by
        have : (n + 1) * (cycle + wait) = n * (cycle + wait) + (cycle + wait) :=
          Nat.succ_mul n (cycle + wait)
        omega
      rcases ih (t + cycle + wait) (by omega) hs2 with ⟨r, hr, hb⟩
      refine ⟨r, ?_, hb⟩
      unfold RegularUpdate
      rw [if_neg hc]
      exact hr

/-- C9 (amended): the loop has a single cancellation check per iteration,
placed both immediately after waking from `sleep(wait)` and before the next
polling cycle; once shutdown is signalled the loop exits at the next such
check, which is within one polling cycle plus one sleep interval of the
signal — not within one sleep interval regardless of cycle length, since a
cycle in flight when the signal arrives is finished and followed by a full
sleep before the flag is read (see the counterexample). -/
theorem C9_shutdown_latency (shutdownAt cycle wait : Nat)
    (hcw : 1 ≤ cycle + wait) :
    ∃ r, RegularUpdate shutdownAt cycle wait 0 (shutdownAt + 2) = some r
         ∧ r < shutdownAt + (cycle + wait) := by
  have hfuel : shutdownAt ≤ 0 + (shutdownAt + 1) * (cycle + wait) := by
    have : shutdownAt + 1 ≤ (shutdownAt + 1) * (cycle + wait) :=
      Nat.le_mul_of_pos_right (shutdownAt + 1) (by omega)
    omega
  exact regularUpdate_exit_bound shutdownAt cycle wait hcw (shutdownAt + 1) 0
    (by omega) hfuel

/-- Witness for C9: with the shutdown signal at 3, a 5-unit cycle and a
1-unit sleep, the loop exits before instant 9. -/
theorem C9_shutdown_latency_witness :
    ∃ r, RegularUpdate 3 5 1 0 5 = some r ∧ r < 9 :=
  C9_shutdown_latency 3 5 1 (by decide)

/-- Counterexample for C9 as stated: signal at instant 1 (just after the
check at 0), cycle 5, sleep 1 — the loop exits at instant 6, which is more
than one sleep interval (1) past the signal, because the in-flight cycle
and a full sleep elapse before the next check. -/
theorem C9_latency_exceeds_sleep :
    RegularUpdate 1 5 1 0 10 = some 6 ∧ ¬ (6 ≤ 1 + 1) := by
  decide

/-- When the staleness gate fails — the cached data is fresh, or another
thread holds the lock — `GoModbus` returns the cached snapshot untouched. -/
theorem goModbus_cached (r : MeterRec) (mp t0 t1 t2 : Int) (lockHeld : Bool)
    (fetch : Except FetchErr (List Nat))
    (h : ¬ (t0 - r.Timestamp > mp ∧ lockHeld = false)) :
    GoModbus r mp t0 t1 t2 lockHeld fetch
      = { record := r, status := "Cached", didFetch := false,
          lockOut := lockHeld } := by
  unfold GoModbus
  rw [if_neg h]

/-- When the staleness gate passes and the lock is free, `GoModbus` runs
its critical section and reports a fetch with the released lock. -/
theorem goModbus_acquired (r : MeterRec) (mp t0 t1 t2 : Int)
    (fetch : Except FetchErr (List Nat)) (hst : t0 - r.Timestamp > mp) :
    GoModbus r mp t0 t1 t2 false fetch
      = { record := (pollBody r t1 t2 fetch).1,
          status := (pollBody r t1 t2 fetch).2,
          didFetch := true, lockOut := false } := by
  unfold GoModbus
  rw [if_pos ⟨hst, rfl⟩]

/-- The critical section on a successful fetch and decode, written with the
branch conditions expressed over the pre-poll record: the sentinel check of
line 86 reads the rotated fields, i.e. the pre-poll `ChangeTime` and
`Value`. -/
theorem pollBody_decode_ok (r : MeterRec) (t1 t2 : Int) (ws : List Nat) (v : Rat)
    (hdec : decodeVal r ws = Except.ok v) :
    pollBody r t1 t2 (Except.ok ws)
      = if v ≠ r.Value
        then ((if r.ChangeTime = tmin ∧ r.Value = 0
               then { r with PrevValue := v, PrevChangeTime := r.ChangeTime,
                             Value := v, Timestamp := t1, ChangeTime := t2 }
               else { r with PrevValue := r.Value, PrevChangeTime := r.ChangeTime,
                             Value := v, Timestamp := t1, ChangeTime := t2 }),
              "Polled")
        else ({ r with Timestamp := t1 }, "Polled but no recent change") := by
  simp only [pollBody]
  rw [hdec]

/-- The critical section on a decode failure leaves the record untouched
and reports the exception message. -/
theorem pollBody_decode_err (r : MeterRec) (t1 t2 : Int) (ws : List Nat) (m : String)
    (hdec : decodeVal r ws = Except.error m) :
    pollBody r t1 t2 (Except.ok ws) = (r, "Error " ++ m) := by
  simp only [pollBody]
  rw [hdec]

/-- C5: for a known meter id whose fetch or decode fails, the poll leaves
every cached field untouched and still returns a snapshot whose `Status`
carries the error description — `Modbus Error <code>` for a
remote-protocol failure, `Error <message>` for a transport failure or a
decode mismatch.  `GoModbus` is a total function of the fetch outcome, so
no failure is ever propagated raw to the caller of a known id. -/
theorem C5_failure_retention (r : MeterRec) (mp t0 t1 t2 : Int)
    (fetch : Except FetchErr (List Nat)) (hst : t0 - r.Timestamp > mp) :
    (∀ c, fetch = Except.error (FetchErr.modbus c) →
        GoModbus r mp t0 t1 t2 false fetch
          = { record := r, status := "Modbus Error " ++ toString c,
              didFetch := true, lockOut := false })
  ∧ (∀ m, fetch = Except.error (FetchErr.other m) →
        GoModbus r mp t0 t1 t2 false fetch
          = { record := r, status := "Error " ++ m,
              didFetch := true, lockOut := false })
  ∧ (∀ ws m, fetch = Except.ok ws → decodeVal r ws = Except.error m →
        GoModbus r mp t0 t1 t2 false fetch
          = { record := r, status := "Error " ++ m,
              didFetch := true, lockOut := false }) := by
  refine ⟨?_, ?_, ?_⟩
  · intro c hc
    subst hc
    rw [goModbus_acquired r mp t0 t1 t2 _ hst]
    rfl
  · intro m hm
    subst hm
    rw [goModbus_acquired r mp t0 t1 t2 _ hst]
    rfl
  · intro ws m hw hd
    subst hw
    rw [goModbus_acquired r mp t0 t1 t2 _ hst,
        pollBody_decode_err r t1 t2 ws m hd]

/-- Witness for C5: a Modbus exception with code 2, a socket timeout, and
the default-encoding decode failure each retain the cached record and
surface the error in the status. -/
theorem C5_failure_retention_witness :
    GoModbus sampleRec 10 100 100 100 false (Except.error (FetchErr.modbus 2))
      = { record := sampleRec, status := "Modbus Error " ++ toString 2,
          didFetch := true, lockOut := false }
  ∧ GoModbus sampleRec 10 100 100 100 false (Except.error (FetchErr.other "timed out"))
      = { record := sampleRec, status := "Error " ++ "timed out",
          didFetch := true, lockOut := false }
  ∧ GoModbus { sampleRec with Encoding := none } 10 100 100 100 false (Except.ok [50])
      = { record := { sampleRec with Encoding := none },
          status := "Error " ++ "bad char in struct format",
          didFetch := true, lockOut := false } :=
  ⟨(C5_failure_retention sampleRec 10 100 100 100 _ (by decide)).1 2 rfl,
   (C5_failure_retention sampleRec 10 100 100 100 _ (by decide)).2.1 "timed out" rfl,
   (C5_failure_retention { sampleRec with Encoding := none } 10 100 100 100 _
      (by decide)).2.2 [50] "bad char in struct format" rfl (by decide)⟩

/-- C1 (amended): when the elapsed time since the record's `Timestamp` is
at most `minpolltime`, `GoModbus` returns the cached snapshot with status
`Cached`, performs no fetch, touches no field and never attempts the lock;
and when a first poll fetches and its decode succeeds, any second poll
issued within `minpolltime` of the first (under a monotone clock) performs
no further fetch and returns status `Cached` with the record — in
particular its `Timestamp` — unchanged.  (If the first poll's fetch or
decode fails its `Timestamp` is not advanced, and a second poll within
`minpolltime` can fetch again: see the counterexample.) -/
theorem C1_staleness_gate :
    (∀ (r : MeterRec) (mp t0 t1 t2 : Int) (lockHeld : Bool)
        (fetch : Except FetchErr (List Nat)),
        t0 - r.Timestamp ≤ mp →
        GoModbus r mp t0 t1 t2 lockHeld fetch
          = { record := r, status := "Cached", didFetch := false,
              lockOut := lockHeld })
  ∧ (∀ (r : MeterRec) (mp t0 t1 t2 : Int) (ws : List Nat) (v : Rat)
        (t0' t1' t2' : Int) (lockHeld' : Bool)
        (fetch' : Except FetchErr (List Nat)),
        t0 - r.Timestamp > mp →
        decodeVal r ws = Except.ok v →
        t0 ≤ t1 →
        t0' - t0 ≤ mp →
        GoModbus (GoModbus r mp t0 t1 t2 false (Except.ok ws)).record
            mp t0' t1' t2' lockHeld' fetch'
          = { record := (GoModbus r mp t0 t1 t2 false (Except.ok ws)).record,
              status := "Cached", didFetch := false, lockOut := lockHeld' }) := by
  constructor
  · intro r mp t0 t1 t2 lockHeld fetch hfresh
    exact goModbus_cached r mp t0 t1 t2 lockHeld fetch
      (fun hcontra => absurd hcontra.1 (not_lt.mpr hfresh))
  · intro r mp t0 t1 t2 ws v t0' t1' t2' lockHeld' fetch' hst hdec h01 hwin
    have hts : (GoModbus r mp t0 t1 t2 false (Except.ok ws)).record.Timestamp = t1 := by
      rw [goModbus_acquired r mp t0 t1 t2 _ hst, pollBody_decode_ok r t1 t2 ws v hdec]
      by_cases hne : v ≠ r.Value
      · rw [if_pos hne]
        by_cases hsent : r.ChangeTime = tmin ∧ r.Value = 0
        · rw [if_pos hsent]
        · rw [if_neg hsent]
      · rw [if_neg hne]
    apply goModbus_cached
    intro hcontra
    rw [hts] at hcontra
    omega

/-- Witness for C1: a fresh record is served from cache without a fetch,
and after one successful poll at 100 a second poll at 105 (within the
10-unit window) is also served from cache with the record unchanged. -/
theorem C1_staleness_gate_witness :
    GoModbus { sampleRec with Timestamp := 95 } 10 100 100 100 false (Except.ok [50])
      = { record := { sampleRec with Timestamp := 95 }, status := "Cached",
          didFetch := false, lockOut := false }
  ∧ GoModbus (GoModbus sampleRec 10 100 100 100 false (Except.ok [50])).record
        10 105 105 105 false (Except.ok [60])
      = { record := (GoModbus sampleRec 10 100 100 100 false (Except.ok [50])).record,
          status := "Cached", didFetch := false, lockOut := false } :=
  ⟨C1_staleness_gate.1 { sampleRec with Timestamp := 95 } 10 100 100 100 false
      (Except.ok [50]) (by decide),
   C1_staleness_gate.2 sampleRec 10 100 100 100 [50] 50 105 105 105 false
      (Except.ok [60]) (by decide) (by decide) (by decide) (by decide)⟩

/-- Counterexample for C1 as stated: with a failing fetch, two polls 5
time units apart (within the 10-unit `minpolltime` window) both invoke the
fetch primitive, and the second does not return `Cached` — the failed
first poll never advanced `Timestamp`, so the staleness gate passes
again. -/
theorem C1_failed_fetch_refetches :
    (GoModbus sampleRec 10 100 100 100 false
        (Except.error (FetchErr.other "timed out"))).didFetch = true
  ∧ (GoModbus (GoModbus sampleRec 10 100 100 100 false
          (Except.error (FetchErr.other "timed out"))).record
        10 105 105 105 false (Except.ok [50])).didFetch = true
  ∧ (GoModbus (GoModbus sampleRec 10 100 100 100 false
          (Except.error (FetchErr.other "timed out"))).record
        10 105 105 105 false (Except.ok [50])).status ≠ "Cached"
  ∧ ((105 : Int) - 100 ≤ 10) := by
  decide

/-- C3 (amended): after a successful fetch and decode yielding `v`, if `v`
differs from `Value` the record rotates `PrevValue ← Value`,
`PrevChangeTime ← ChangeTime`, sets `Value ← v` and stamps `Timestamp` and
`ChangeTime` with the two clock reads of the update line, with status
`Polled`; the sentinel special case then re-seeds `PrevValue ← v`, but its
condition is evaluated on the already-rotated fields — it fires exactly
when the pre-poll `ChangeTime` is the epoch sentinel and the pre-poll
`Value` is `0` (not when the pre-poll `PrevChangeTime`/`PrevValue` are at
their sentinels: see the counterexample).  Consequently the first
successful poll of a sentinel-state record with value `10` yields
`Value = 10` and `PrevValue = 10`.  If `v` equals `Value`, only
`Timestamp` is updated and every change-tracking field is untouched. -/
theorem C3_change_tracking (r : MeterRec) (mp t0 t1 t2 : Int) (ws : List Nat)
    (v : Rat) (hst : t0 - r.Timestamp > mp)
    (hdec : decodeVal r ws = Except.ok v) :
    (v ≠ r.Value →
        GoModbus r mp t0 t1 t2 false (Except.ok ws)
          = { record :=
                (if r.ChangeTime = tmin ∧ r.Value = 0
                 then { r with PrevValue := v, PrevChangeTime := r.ChangeTime,
                               Value := v, Timestamp := t1, ChangeTime := t2 }
                 else { r with PrevValue := r.Value,
                               PrevChangeTime := r.ChangeTime,
                               Value := v, Timestamp := t1, ChangeTime := t2 }),
              status := "Polled", didFetch := true, lockOut := false })
  ∧ (v = r.Value →
        GoModbus r mp t0 t1 t2 false (Except.ok ws)
          = { record := { r with Timestamp := t1 },
              status := "Polled but no recent change", didFetch := true,
              lockOut := false })
  ∧ (r.Value = 0 → r.ChangeTime = tmin → v ≠ 0 →
        (GoModbus r mp t0 t1 t2 false (Except.ok ws)).record.Value = v
      ∧ (GoModbus r mp t0 t1 t2 false (Except.ok ws)).record.PrevValue = v) := by
  have hbody := goModbus_acquired r mp t0 t1 t2 (Except.ok ws) hst
  have hpoll := pollBody_decode_ok r t1 t2 ws v hdec
  refine ⟨?_, ?_, ?_⟩
  · intro hne
    rw [hbody, hpoll, if_pos hne]
  · intro heq
    rw [hbody, hpoll, if_neg (fun hne => hne heq)]
  · intro h0 hct hv
    have hne : v ≠ r.Value := by rw [h0]; exact hv
    rw [hbody, hpoll, if_pos hne, if_pos ⟨hct, h0⟩]
    exact ⟨rfl, rfl⟩

/-- Witness for C3: the first poll of the sentinel-state record with a
decoded value of 10 rotates and re-seeds `PrevValue` to 10; a poll of a
record already holding 10 that decodes 10 again only refreshes
`Timestamp`. -/
theorem C3_change_tracking_witness :
    GoModbus sampleRec 10 100 100 100 false (Except.ok [10])
      = { record :=
            { sampleRec with
                PrevValue := 10, PrevChangeTime := tmin, Value := 10,
                Timestamp := 100, ChangeTime := 100 },
          status := "Polled", didFetch := true, lockOut := false }
  ∧ GoModbus { sampleRec with Value := 10 } 10 100 100 100 false (Except.ok [10])
      = { record := { sampleRec with Value := 10, Timestamp := 100 },
          status := "Polled but no recent change", didFetch := true,
          lockOut := false } := by
  constructor
  · have h := (C3_change_tracking sampleRec 10 100 100 100 [10] 10
        (by decide) (by decide)).1 (by decide)
    rw [h]
    decide
  · have h := (C3_change_tracking { sampleRec with Value := 10 } 10 100 100 100
        [10] 10 (by decide) (by decide)).2.1 (by decide)
    rw [h]

/-- Counterexample for C3 as stated: a record whose `PrevChangeTime` and
`PrevValue` are still at their sentinel defaults (epoch and 0) but whose
`Value` is 5 — as loaded from a definition file carrying a `Value` column —
polls a new value 10; the claim's reading of the special case predicts
`PrevValue = 10`, yet the code checks the rotated fields (pre-poll
`ChangeTime`/`Value`), does not fire, and leaves `PrevValue = 5`. -/
theorem C3_sentinel_check_post_rotation :
    ({ sampleRec with Value := 5 } : MeterRec).PrevValue = 0
  ∧ ({ sampleRec with Value := 5 } : MeterRec).PrevChangeTime = tmin
  ∧ (GoModbus { sampleRec with Value := 5 } 10 100 100 100 false
        (Except.ok [10])).record.PrevValue = 5
  ∧ (GoModbus { sampleRec with Value := 5 } 10 100 100 100 false
        (Except.ok [10])).record.PrevValue ≠ 10 := by
  decide

/-- C10: a meter whose cache is still in the loaded sentinel state
(`Value = 0`, `ChangeTime` at the epoch) and whose fetch decodes to `0`
takes the no-change branch — only `Timestamp` is refreshed, `Value` and
`PrevValue` stay `0`, both change-time fields stay at the epoch; and a
later poll decoding any `v ≠ 0` is the first to set `ChangeTime` to a real
instant, at which moment the sentinel special case fires — even though it
is not the first successful poll — leaving `PrevValue = v`. -/
theorem C10_zero_first_poll (r : MeterRec) (mp t0 t1 t2 : Int) (ws : List Nat)
    (h0 : r.Value = 0) (hct : r.ChangeTime = tmin)
    (hst : t0 - r.Timestamp > mp) :
    (decodeVal r ws = Except.ok 0 →
        GoModbus r mp t0 t1 t2 false (Except.ok ws)
          = { record := { r with Timestamp := t1 },
              status := "Polled but no recent change", didFetch := true,
              lockOut := false })
  ∧ (∀ v : Rat, decodeVal r ws = Except.ok v → v ≠ 0 →
        (GoModbus r mp t0 t1 t2 false (Except.ok ws)).record.Value = v
      ∧ (GoModbus r mp t0 t1 t2 false (Except.ok ws)).record.PrevValue = v
      ∧ (GoModbus r mp t0 t1 t2 false (Except.ok ws)).record.ChangeTime = t2
      ∧ (GoModbus r mp t0 t1 t2 false (Except.ok ws)).status = "Polled") := by
  constructor
  · intro hdec
    rw [goModbus_acquired r mp t0 t1 t2 _ hst, pollBody_decode_ok r t1 t2 ws 0 hdec,
        if_neg (fun hne => hne h0.symm)]
  · intro v hdec hv
    have hne : v ≠ r.Value := by rw [h0]; exact hv
    rw [goModbus_acquired r mp t0 t1 t2 _ hst, pollBody_decode_ok r t1 t2 ws v hdec,
        if_pos hne, if_pos ⟨hct, h0⟩]
    exact ⟨rfl, rfl, rfl, rfl⟩

/-- Witness for C10: the sentinel-state record polled with a decoded 0 at
instant 100 only refreshes `Timestamp`; polled next with 50 at instant
200, it sets `Value = 50`, seeds `PrevValue = 50`, and stamps
`ChangeTime = 200` even though a successful poll already happened. -/
theorem C10_zero_first_poll_witness :
    GoModbus sampleRec 10 100 100 100 false (Except.ok [0])
      = { record := { sampleRec with Timestamp := 100 },
          status := "Polled but no recent change", didFetch := true,
          lockOut := false }
  ∧ (GoModbus { sampleRec with Timestamp := 100 } 10 200 200 200 false
        (Except.ok [50])).record.Value = 50
  ∧ (GoModbus { sampleRec with Timestamp := 100 } 10 200 200 200 false
        (Except.ok [50])).record.PrevValue = 50
  ∧ (GoModbus { sampleRec with Timestamp := 100 } 10 200 200 200 false
        (Except.ok [50])).record.ChangeTime = 200
  ∧ (GoModbus { sampleRec with Timestamp := 100 } 10 200 200 200 false
        (Except.ok [50])).status = "Polled" := by
  refine ⟨?_, ?_⟩
  · exact (C10_zero_first_poll sampleRec 10 100 100 100 [0] (by decide) (by decide)
      (by decide)).1 (by decide)
  · have h := (C10_zero_first_poll { sampleRec with Timestamp := 100 } 10 200 200 200
        [50] (by decide) (by decide) (by decide)).2 50 (by decide) (by decide)
    exact ⟨h.1, h.2.1, h.2.2.1, h.2.2.2⟩

/-- C7 (amended): under a monotone clock, and provided the two clock reads
of the update line coincide (`t1 = t2`), any poll preserves the ordering
`Timestamp ≥ ChangeTime ≥ PreviousChangeTime`, on the changed-value path,
the unchanged-value path, and every failure path.  Without that proviso
the ordering can break: line 84 calls `datetime.utcnow()` once for
`Timestamp` and once more for `ChangeTime`, so on the changed-value path
`ChangeTime` can exceed `Timestamp` (see the counterexample). -/
theorem C7_time_ordering (r : MeterRec) (mp t0 t1 t2 : Int) (lockHeld : Bool)
    (fetch : Except FetchErr (List Nat)) (hr : timeOrdered r) (hmp : 0 ≤ mp)
    (h01 : t0 ≤ t1) (h12 : t1 = t2) :
    timeOrdered (GoModbus r mp t0 t1 t2 lockHeld fetch).record := by
  by_cases hgate : t0 - r.Timestamp > mp ∧ lockHeld = false
  · obtain ⟨hg1, hg2⟩ := hgate
    subst hg2
    have hts : r.Timestamp < t0 := by omega
    rw [goModbus_acquired r mp t0 t1 t2 fetch hg1]
    · rcases fetch with e | ws
      · rcases e with c | m <;> exact hr
      · rcases hdec : decodeVal r ws with m | v
        · rw [pollBody_decode_err r t1 t2 ws m hdec]
          exact hr
        · rw [pollBody_decode_ok r t1 t2 ws v hdec]
          rcases hr with ⟨hr1, hr2⟩
          by_cases hne : v ≠ r.Value
          · rw [if_pos hne]
            by_cases hsent : r.ChangeTime = tmin ∧ r.Value = 0
            · rw [if_pos hsent]
              exact ⟨by simp only []; omega, by simp only []; omega⟩
            · rw [if_neg hsent]
              exact ⟨by simp only []; omega, by simp only []; omega⟩
          · rw [if_neg hne]
            exact ⟨by simp only []; omega, by simp only []; omega⟩
  · rw [goModbus_cached r mp t0 t1 t2 lockHeld fetch hgate]
    exact hr

/-- Witness for C7: a poll of the sentinel-state record with coinciding
update-line clock reads keeps the ordering. -/
theorem C7_time_ordering_witness :
    timeOrdered (GoModbus sampleRec 10 100 100 100 false (Except.ok [50])).record :=
  C7_time_ordering sampleRec 10 100 100 100 false (Except.ok [50])
    (by decide) (by decide) (by decide) rfl

/-- Counterexample for C7 as stated: the sentinel-state record satisfies
the ordering, the clock is monotone (`100 ≤ 100 ≤ 101`), yet after a
changed-value poll whose two update-line clock reads are 100 and 101 the
record has `ChangeTime = 101 > 100 = Timestamp`, violating
`Timestamp ≥ ChangeTime`. -/
theorem C7_two_clock_reads :
    timeOrdered sampleRec
  ∧ ¬ timeOrdered (GoModbus sampleRec 10 100 100 101 false (Except.ok [50])).record := by
  decide

/-- Out-of-range program-counter reads return the placeholder `done`. -/
theorem getD_out_of_range (l : List PC) :
    ∀ i, l.length ≤ i → l.getD i pcDflt = pcDflt := by
  induction l with
  | nil => intro i _; rfl
  | cons a rest ih =>
    intro i h
    cases i with
    | zero => simp at h
    | succ n =>
      simp only [List.getD_cons_succ]
      exact ih n (by simpa using h)

/-- Updating one program counter trades its fetch contribution for the new
one. -/
theorem countFetching_set (l : List PC) :
    ∀ (i : Nat) (v : PC), i < l.length →
      countFetching (l.set i v) + cf1 (l.getD i pcDflt)
        = countFetching l + cf1 v := by
  induction l with
  | nil => intro i v h; simp at h
  | cons a rest ih =>
    intro i v h
    cases i with
    | zero =>
      simp only [List.set_cons_zero, List.getD_cons_zero, countFetching]
      omega
    | succ n =>
      simp only [List.set_cons_succ, List.getD_cons_succ, countFetching]
      have := ih n v (by simpa using h)
      omega

/-- A caller observed at `fetching` contributes to the fetch count. -/
theorem countFetching_pos (l : List PC) :
    ∀ i, l.getD i pcDflt = PC.fetching → 1 ≤ countFetching l := by
  induction l with
  | nil =>
    intro i h
    exact absurd h (by simp [List.getD, pcDflt])
  | cons a rest ih =>
    intro i h
    cases i with
    | zero =>
      simp only [List.getD_cons_zero] at h
      simp only [countFetching, h, cf1]
      omega
    | succ n =>
      simp only [List.getD_cons_succ] at h
      have := ih n h
      simp only [countFetching]
      omega

/-- Every atomic step of every caller preserves the lock/fetch-count
invariant: the guard is held exactly while one fetch is in flight. -/
theorem stepCaller_exInv (mp now t1 t2 : Int) (fetch : Except FetchErr (List Nat))
    (s : Sys) (i : Nat) (h : exInv s) :
    exInv (stepCaller mp now t1 t2 fetch s i) := by
  unfold exInv at h ⊢
  by_cases hib : i < s.pcs.length
  · unfold stepCaller
    cases hpc : s.pcs.getD i pcDflt with
    | start =>
      have hset := countFetching_set s.pcs i
      by_cases hstale : now - s.record.Timestamp > mp
      · rw [if_pos hstale]
        have := hset PC.gated hib
        rw [hpc] at this
        simp only [cf1] at this
        simpa using by omega
      · rw [if_neg hstale]
        have := hset (PC.done "Cached" false) hib
        rw [hpc] at this
        simp only [cf1] at this
        simpa using by omega
    | gated =>
      by_cases hlock : s.lock
      · rw [if_pos hlock]
        have := countFetching_set s.pcs i (PC.done "Cached" false) hib
        rw [hpc] at this
        simp only [cf1] at this
        simp only [hlock, if_pos] at h ⊢
        simpa using by omega
      · rw [if_neg hlock]
        have := countFetching_set s.pcs i PC.fetching hib
        rw [hpc] at this
        simp only [cf1] at this
        have hl0 : s.lock = false := by
          cases hsl : s.lock
          · rfl
          · exact absurd hsl hlock
        rw [hl0] at h
        simp at h
        simpa using by omega
    | fetching =>
      have hpos := countFetching_pos s.pcs i hpc
      have hlock : s.lock = true := by
        cases hsl : s.lock
        · rw [hsl] at h
          simp at h
          omega
        · rfl
      rw [hlock] at h
      simp at h
      have := countFetching_set s.pcs i
        (PC.done (pollBody s.record t1 t2 fetch).2 true) hib
      rw [hpc] at this
      simp only [cf1] at this
      simpa using by omega
    | done st f => exact h
  · have hdone : s.pcs.getD i pcDflt = pcDflt :=
      getD_out_of_range s.pcs i (by omega)
    unfold stepCaller
    rw [hdone]
    exact h

/-- Running any schedule from an invariant state keeps the invariant. -/
theorem runSched_exInv (mp now t1 t2 : Int) (fetch : Except FetchErr (List Nat)) :
    ∀ (sched : List Nat) (s : Sys), exInv s →
      exInv (runSched mp now t1 t2 fetch s sched) := by
  intro sched
  induction sched with
  | nil => intro s h; exact h
  | cons i rest ih =>
    intro s h
    exact ih _ (stepCaller_exInv mp now t1 t2 fetch s i h)

/-- The `n` initial program counters contribute no in-flight fetch. -/
theorem countFetching_replicate_start (n : Nat) :
    countFetching (List.replicate n PC.start) = 0 := by
  induction n with
  | zero => rfl
  | succ k ih => simpa [List.replicate, countFetching, cf1] using ih

/-- C2 (amended): the record's guard is only ever taken with the
non-blocking `acquire(False)` — no caller waits — and a caller that finds
the guard busy returns the cached snapshot with `Status = Cached` without
invoking the fetch primitive; consequently, over every interleaving of any
number of concurrent `poll` calls for one id, at most one fetch is in
flight at any instant.  (That "exactly one fetch happens and the rest
observe Cached" is NOT guaranteed: the staleness check and the acquire are
two separate atomic actions, so a caller that passes the staleness check
before the winner's update but acquires after its release performs a
second fetch — see the counterexample.) -/
theorem C2_single_flight :
    (∀ (n : Nat) (r : MeterRec) (mp now t1 t2 : Int)
        (fetch : Except FetchErr (List Nat)) (sched : List Nat),
        countFetching (runSched mp now t1 t2 fetch (initSys n r) sched).pcs ≤ 1)
  ∧ (∀ (r : MeterRec) (mp t0 t1 t2 : Int) (fetch : Except FetchErr (List Nat)),
        GoModbus r mp t0 t1 t2 true fetch
          = { record := r, status := "Cached", didFetch := false,
              lockOut := true }) := by
  constructor
  · intro n r mp now t1 t2 fetch sched
    have hinit : exInv (initSys n r) := by
      unfold exInv initSys
      simp [countFetching_replicate_start]
    have hfin := runSched_exInv mp now t1 t2 fetch sched (initSys n r) hinit
    unfold exInv at hfin
    rw [hfin]
    by_cases hl : (runSched mp now t1 t2 fetch (initSys n r) sched).lock = true
    · rw [if_pos hl]
    · rw [if_neg hl]
      omega
  · intro r mp t0 t1 t2 fetch
    exact goModbus_cached r mp t0 t1 t2 true fetch (fun hc => by simp at hc)

/-- Counterexample for C2 as stated: two concurrent callers, both passing
the staleness check before either acquires; caller 0 acquires, fetches,
updates and releases; caller 1 — whose staleness check already passed —
then acquires the freed guard and fetches again.  Both callers invoke the
fetch primitive (2 invocations) and both observe non-`Cached` statuses,
refuting "exactly one fetch, the rest observe Cached". -/
theorem C2_gate_acquire_race :
    (runSched 10 100 100 100 (Except.ok [50]) (initSys 2 sampleRec)
        [0, 1, 0, 0, 1, 1]).fetches = 2
  ∧ (runSched 10 100 100 100 (Except.ok [50]) (initSys 2 sampleRec)
        [0, 1, 0, 0, 1, 1]).pcs
      = [PC.done "Polled" true, PC.done "Polled but no recent change" true] := by
  decide
